import Mathlib

/-!
Verification of the resilient OCR caller and its surrounding conversion flow
from src/script.py of the Handwrittem-to-Text repository.

The Python source is shallowly embedded as pure Lean functions.  Effectful
parts are made explicit:
  - the remote generate_content call becomes an oracle
    net : String -> Nat -> NetResult giving, for a model name and a 0-based
    attempt index, either a response text or an exception message;
  - random.uniform(0, 0.5) becomes an oracle jit : Nat -> Nat -> Rat indexed
    by model index and attempt index;
  - the module-level dictionary OCR cache becomes an explicit association
    list threaded through the call;
  - time.sleep durations are logged in an output trace, as is the number of
    outbound network calls;
  - hashlib.sha1 (an external library) is a parameter hash of the call.
Byte strings are modelled as List Nat, Python str as Lean String.
-/

namespace Script

/-- Cache key of the session OCR cache: sha1 hex digest of the image bytes
paired with the prompt string (line 80 of src/script.py). -/
abbrev CacheKey := String × String

/-- The module-level dictionary OCR cache, as an association list.  A write
prepends, a lookup takes the first hit, matching dictionary overwrite
semantics. -/
abbrev Cache := List (CacheKey × String)

/-- DAILY_LIMIT constant, line 61 of src/script.py. -/
def DAILY_LIMIT : Nat := 5

/-- Whether the character list needle occurs at the start of hay. -/
def leadMatch : List Char → List Char → Bool
  | [], _ => true
  | _ :: _, [] => false
  | c :: cs, d :: ds => c = d && leadMatch cs ds

/-- Whether needle occurs contiguously anywhere inside the character list. -/
def hasSub (needle : List Char) : List Char → Bool
  | [] => needle.isEmpty
  | c :: rest => leadMatch needle (c :: rest) || hasSub needle rest

/-- Python substring containment: needle in hay. -/
def containsSub (hay needle : String) : Bool := hasSub needle.data hay.data

/-- Python str.lower, character by character. -/
def lowerStr (s : String) : String := String.mk (s.data.map Char.toLower)

/-- Python str.strip on a character list: drop whitespace from both ends. -/
def stripChars (l : List Char) : List Char :=
  ((l.dropWhile Char.isWhitespace).reverse.dropWhile Char.isWhitespace).reverse

/-- Python str.strip. -/
def pyStrip (s : String) : String := String.mk (stripChars s.data)

/-- Transient-error classification of line 105 of src/script.py:
("503" in msg) or ("UNAVAILABLE" in msg) or ("deadline" in msg.lower()).
The first two matches are case-sensitive; only the deadline check lowers
the message first. -/
def isTransient (msg : String) : Bool :=
  containsSub msg "503" || containsSub msg "UNAVAILABLE" ||
    containsSub (lowerStr msg) "deadline"

/-- Classifier following the words of the specification instead of the code:
case-insensitive substring match of 503, UNAVAILABLE and deadline against
the description.  Used only to compare the spec wording with isTransient. -/
def transientSpecCI (msg : String) : Bool :=
  containsSub (lowerStr msg) "503" || containsSub (lowerStr msg) "unavailable" ||
    containsSub (lowerStr msg) "deadline"

/-- The ordered model fallback list, lines 84 to 88 of src/script.py. -/
def ocrModels : List String :=
  ["gemini-2.5-flash", "gemini-1.5-flash", "gemini-1.5-flash-8b"]

/-- Base backoff seconds, line 92 of src/script.py. -/
def ocrBase : ℚ := 0.8

/-- Outcome of one generate_content call: a response (whose text attribute
may be absent, modelled as Option) or a raised exception message. -/
inductive NetResult where
  | success (respText : Option String)
  | failure (msg : String)

/-- Result of the 6-attempt retry loop for one model (lines 93 to 112):
a returned text, a re-raised non-transient error, or exhaustion carrying
the threaded last_err value. -/
inductive ARes where
  | ok (text : String)
  | fatal (msg : String)
  | exhausted (lastErr : Option String)

/-- Trace of the retry loop for one model: its result, the slept backoff
durations in order, and the number of outbound network calls made. -/
structure AOut where
  res : ARes
  sleeps : List ℚ
  calls : Nat

/-- The inner retry loop of ocr_with_gemini (for attempt in range(6), lines
93 to 112).  lastErr is the threaded last_err variable, attempt the current
0-based attempt index, fuel the number of loop iterations left.  On success
the response text defaults to the empty string and is stripped (line 100).
A transient failure sleeps base * 2 ^ attempt + jitter (line 107) and
continues; any other failure re-raises at once (line 112). -/
def runAttempts (net : Nat → NetResult) (jit : Nat → ℚ) :
    Option String → Nat → Nat → AOut
  | lastErr, _, 0 => ⟨.exhausted lastErr, [], 0⟩
  | lastErr, attempt, fuel + 1 =>
    match net attempt with
    | .success respText => ⟨.ok (pyStrip (respText.getD "")), [], 1⟩
    | .failure msg =>
      if isTransient msg then
        let d : ℚ := ocrBase * 2 ^ attempt + jit attempt
        let rest := runAttempts net jit (some msg) (attempt + 1) fuel
        ⟨rest.res, d :: rest.sleeps, rest.calls + 1⟩
      else
        ⟨.fatal msg, [], 1⟩

/-- Trace of the model fallback loop: final result (returned text or raised
error message), slept durations, and outbound network calls. -/
structure MOut where
  res : Except String String
  sleeps : List ℚ
  calls : Nat

/-- The model fallback loop of ocr_with_gemini (for model in models, lines
91 to 116).  After a model exhausts its retries, last_err is kept if set,
else replaced by the generic per-model error (line 114); when the model
list is exhausted the final error is last_err, or the generic exhaustion
error if none was recorded (line 116).  A fatal error propagates without
trying further models. -/
def runModels (net : String → Nat → NetResult) (jit : Nat → Nat → ℚ) :
    Option String → Nat → List String → MOut
  | lastErr, _, [] => ⟨.error (lastErr.getD "All OCR attempts failed."), [], 0⟩
  | lastErr, mIdx, model :: rest =>
    let a := runAttempts (net model) (jit mIdx) lastErr 0 6
    match a.res with
    | .ok t => ⟨.ok t, a.sleeps, a.calls⟩
    | .fatal msg => ⟨.error msg, a.sleeps, a.calls⟩
    | .exhausted e =>
      let lastErr2 := some (e.getD ("Model " ++ model ++ " failed after retries."))
      let r := runModels net jit lastErr2 (mIdx + 1) rest
      ⟨r.res, a.sleeps ++ r.sleeps, a.calls + r.calls⟩

/-- Dictionary lookup in the session cache (cache_key in _OCR_CACHE). -/
def cacheLookup (c : Cache) (k : CacheKey) : Option String :=
  match c with
  | [] => none
  | (k2, v) :: rest => if k2 = k then some v else cacheLookup rest k

/-- Trace of one ocr_with_gemini call: the returned text or raised error,
the cache after the call, the slept durations, and the number of outbound
network calls. -/
structure OcrOut where
  result : Except String String
  cache : Cache
  sleeps : List ℚ
  calls : Nat

/-- Embedding of ocr_with_gemini, lines 73 to 116 of src/script.py.
hash stands for the sha1 hex digest of hashlib (an external library); the
declared filename fname is used by the source only to infer a MIME type
for request framing and influences nothing modelled here.  A cache hit
returns at once with no network call (lines 80 to 82); otherwise the model
fallback loop runs and a successful text is stored under the key derived
from the image bytes and the prompt (line 101). -/
def ocr_with_gemini (hash : List Nat → String) (net : String → Nat → NetResult)
    (jit : Nat → Nat → ℚ) (cache : Cache) (data : List Nat) (fname : String)
    (prompt : String) : OcrOut :=
  let cache_key : CacheKey := (hash data, prompt)
  match cacheLookup cache cache_key with
  | some t => ⟨.ok t, cache, [], 0⟩
  | none =>
    let r := runModels net jit none 0 ocrModels
    match r.res with
    | .ok t => ⟨.ok t, (cache_key, t) :: cache, r.sleeps, r.calls⟩
    | .error e => ⟨.error e, cache, r.sleeps, r.calls⟩

/-- The persisted usage record {date, count}, section API & USAGE of
src/script.py. -/
structure UsageRecord where
  date : String
  count : Nat
deriving DecidableEq

/-- Embedding of load_usage, lines 118 to 127 of src/script.py.  stored is
the content of usage.json when the file exists, today the current date in
ISO form.  A stored record whose date differs from today is replaced by a
fresh record for today with count 0. -/
def load_usage (stored : Option UsageRecord) (today : String) : UsageRecord :=
  let d := match stored with
    | some r => r
    | none => ⟨"", 0⟩
  if d.date ≠ today then ⟨today, 0⟩ else d

/-- The fixed page separator of line 249 of src/script.py. -/
def pageBreak : String := "\n\n--- Page Break ---\n\n"

/-- Python str.join with the given separator. -/
def joinWith (sep : String) : List String → String
  | [] => ""
  | [t] => t
  | t :: rest => t ++ sep ++ joinWith sep rest

/-- Line 249 of src/script.py: join the page texts, each stripped, with the
fixed page separator. -/
def joinPages (texts : List String) : String :=
  joinWith pageBreak (texts.map pyStrip)

/-- The placeholder appended for a failed page, line 228 of src/script.py. -/
def pageFailText (i : Nat) (e : String) : String :=
  "[Page " ++ Nat.repr i ++ " failed after retries: " ++ e ++ "]"

/-- The PDF page loop, lines 218 to 232 of src/script.py.  pageResult gives,
for each 1-based page number, the text extracted from that page or the
message of the exception raised while rasterizing or OCRing it; a failed
page contributes the placeholder instead of aborting the batch. -/
def pdfTexts (pageResult : Nat → Except String String) (total : Nat) :
    List String :=
  (List.range total).map (fun idx =>
    match pageResult (idx + 1) with
    | .ok t => t
    | .error err => pageFailText (idx + 1) err)

/-- The two refusals issued before any client construction or network
activity, lines 180 to 189 of src/script.py. -/
inductive Refusal where
  | quotaExceeded
  | missingKey
deriving DecidableEq

/-- Trace of one press of the Convert button: the refusal if any, whether a
genai client was constructed, how many pages entered the OCR loop, the
joined text, whether the blank-text warning was shown, and the record
passed to save_usage if it was called at all. -/
structure ConvertOut where
  refusal : Option Refusal
  clientBuilt : Bool
  pagesProcessed : Nat
  fullText : String
  blankWarning : Bool
  saved : Option UsageRecord

/-- Embedding of the top-level convert block, lines 180 to 276 of
src/script.py, for the PDF branch.  With the shared default key the usage
record is loaded and the attempt refused when the count has reached
DAILY_LIMIT (lines 181 to 185); an empty key is refused next (lines 187
to 189); both refusals happen before the client is constructed (line 191)
and before any page is OCRed.  Otherwise every page is processed, the page
texts are stripped and joined, and only when the joined text is non-blank
and the default key is in use is the count incremented by one and persisted
via save_usage (lines 251, 273 to 275). -/
def convert (use_default : Bool) (stored : Option UsageRecord) (today : String)
    (api_key : String) (pageOcr : Nat → Except String String) (numPages : Nat) :
    ConvertOut :=
  let usage := load_usage stored today
  if use_default = true ∧ usage.count ≥ DAILY_LIMIT then
    ⟨some .quotaExceeded, false, 0, "", false, none⟩
  else if api_key = "" then
    ⟨some .missingKey, false, 0, "", false, none⟩
  else
    let texts := pdfTexts pageOcr numPages
    let full_text := joinPages texts
    if pyStrip full_text = "" then
      ⟨none, true, numPages, full_text, true, none⟩
    else if use_default then
      ⟨none, true, numPages, full_text, false, some ⟨usage.date, usage.count + 1⟩⟩
    else
      ⟨none, true, numPages, full_text, false, none⟩

/-! Concrete instances used by the witness theorems. -/

/-- A concrete digest function for witnesses. -/
def hashW : List Nat → String := fun l => "h" ++ Nat.repr l.length

/-- A network oracle that always succeeds with the text Hello. -/
def netOk : String → Nat → NetResult := fun _ _ => .success (some "Hello")

/-- A network oracle failing transiently on attempt 0 and succeeding on
every later attempt. -/
def netRetry : String → Nat → NetResult := fun _ a =>
  if a = 0 then .failure "503 down" else .success (some "Hi")

/-- A network oracle that always fails with a non-transient message. -/
def netFatal : String → Nat → NetResult := fun _ _ => .failure "bad request"

/-- A network oracle that always fails with a transient message. -/
def netUnavail : String → Nat → NetResult := fun _ _ => .failure "503 down"

/-- A jitter oracle that always returns zero. -/
def jitW : Nat → Nat → ℚ := fun _ _ => 0

/-- A page oracle for the three-page scenario: page 1 returns A, page 2
raises boom, page 3 returns C. -/
def pagesW : Nat → Except String String := fun i =>
  if i = 1 then .ok "A" else if i = 2 then .error "boom" else .ok "C"

/-- A page oracle whose every page yields an empty text. -/
def pagesBlank : Nat → Except String String := fun _ => .ok ""

/-! General helper lemmas. -/

theorem strData_append (a b : String) : (a ++ b).data = a.data ++ b.data := by
  cases a; cases b; rfl

theorem strExt {a b : String} (h : a.data = b.data) : a = b := by
  cases a; cases b; cases h; rfl

theorem strAppend_assoc (a b c : String) : a ++ b ++ c = a ++ (b ++ c) :=
  strExt (by simp [strData_append, List.append_assoc])

theorem stripChars_sandwich (c d : Char) (mid : List Char)
    (hc : c.isWhitespace = false) (hd : d.isWhitespace = false) :
    stripChars (c :: (mid ++ [d])) = c :: (mid ++ [d]) := by
  simp [stripChars, List.dropWhile_cons, hc, hd]

theorem cacheLookup_cons_self (k : CacheKey) (v : String) (c : Cache) :
    cacheLookup ((k, v) :: c) k = some v := by
  simp [cacheLookup]

/-! Step lemmas restating the branches of the embedded functions. -/

theorem runAttempts_zero (net : Nat → NetResult) (jit : Nat → ℚ)
    (le : Option String) (a : Nat) :
    runAttempts net jit le a 0 = ⟨.exhausted le, [], 0⟩ := rfl

theorem runAttempts_succ_success (net : Nat → NetResult) (jit : Nat → ℚ)
    (le : Option String) (a fuel : Nat) (t : Option String)
    (h : net a = .success t) :
    runAttempts net jit le a (fuel + 1) = ⟨.ok (pyStrip (t.getD "")), [], 1⟩ := by
  simp [runAttempts, h]

theorem runAttempts_succ_trans (net : Nat → NetResult) (jit : Nat → ℚ)
    (le : Option String) (a fuel : Nat) (msg : String)
    (h : net a = .failure msg) (ht : isTransient msg = true) :
    runAttempts net jit le a (fuel + 1) =
      ⟨(runAttempts net jit (some msg) (a + 1) fuel).res,
       (ocrBase * 2 ^ a + jit a) :: (runAttempts net jit (some msg) (a + 1) fuel).sleeps,
       (runAttempts net jit (some msg) (a + 1) fuel).calls + 1⟩ := by
  simp [runAttempts, h, ht]

theorem runAttempts_succ_fatal (net : Nat → NetResult) (jit : Nat → ℚ)
    (le : Option String) (a fuel : Nat) (msg : String)
    (h : net a = .failure msg) (ht : isTransient msg = false) :
    runAttempts net jit le a (fuel + 1) = ⟨.fatal msg, [], 1⟩ := by
  simp [runAttempts, h, ht]

theorem runModels_nil (net : String → Nat → NetResult) (jit : Nat → Nat → ℚ)
    (le : Option String) (i : Nat) :
    runModels net jit le i [] = ⟨.error (le.getD "All OCR attempts failed."), [], 0⟩ := rfl

theorem runModels_cons_ok (net : String → Nat → NetResult) (jit : Nat → Nat → ℚ)
    (le : Option String) (i : Nat) (model : String) (rest : List String)
    (t : String) (s : List ℚ) (c : Nat)
    (h : runAttempts (net model) (jit i) le 0 6 = ⟨.ok t, s, c⟩) :
    runModels net jit le i (model :: rest) = ⟨.ok t, s, c⟩ := by
  simp [runModels, h]

theorem runModels_cons_fatal (net : String → Nat → NetResult) (jit : Nat → Nat → ℚ)
    (le : Option String) (i : Nat) (model : String) (rest : List String)
    (msg : String) (s : List ℚ) (c : Nat)
    (h : runAttempts (net model) (jit i) le 0 6 = ⟨.fatal msg, s, c⟩) :
    runModels net jit le i (model :: rest) = ⟨.error msg, s, c⟩ := by
  simp [runModels, h]

theorem runModels_cons_exh (net : String → Nat → NetResult) (jit : Nat → Nat → ℚ)
    (le : Option String) (i : Nat) (model : String) (rest : List String)
    (e : Option String) (s : List ℚ) (c : Nat)
    (h : runAttempts (net model) (jit i) le 0 6 = ⟨.exhausted e, s, c⟩) :
    runModels net jit le i (model :: rest) =
      ⟨(runModels net jit
          (some (e.getD ("Model " ++ model ++ " failed after retries."))) (i + 1) rest).res,
       s ++ (runModels net jit
          (some (e.getD ("Model " ++ model ++ " failed after retries."))) (i + 1) rest).sleeps,
       c + (runModels net jit
          (some (e.getD ("Model " ++ model ++ " failed after retries."))) (i + 1) rest).calls⟩ := by
  simp [runModels, h]

theorem ocr_hit (hash : List Nat → String) (net : String → Nat → NetResult)
    (jit : Nat → Nat → ℚ) (cache : Cache) (data : List Nat) (fname prompt t : String)
    (hl : cacheLookup cache (hash data, prompt) = some t) :
    ocr_with_gemini hash net jit cache data fname prompt = ⟨.ok t, cache, [], 0⟩ := by
  simp [ocr_with_gemini, hl]

theorem ocr_miss_ok (hash : List Nat → String) (net : String → Nat → NetResult)
    (jit : Nat → Nat → ℚ) (cache : Cache) (data : List Nat) (fname prompt t : String)
    (s : List ℚ) (c : Nat)
    (hl : cacheLookup cache (hash data, prompt) = none)
    (hr : runModels net jit none 0 ocrModels = ⟨.ok t, s, c⟩) :
    ocr_with_gemini hash net jit cache data fname prompt =
      ⟨.ok t, ((hash data, prompt), t) :: cache, s, c⟩ := by
  simp [ocr_with_gemini, hl, hr]

theorem ocr_miss_err (hash : List Nat → String) (net : String → Nat → NetResult)
    (jit : Nat → Nat → ℚ) (cache : Cache) (data : List Nat) (fname prompt e : String)
    (s : List ℚ) (c : Nat)
    (hl : cacheLookup cache (hash data, prompt) = none)
    (hr : runModels net jit none 0 ocrModels = ⟨.error e, s, c⟩) :
    ocr_with_gemini hash net jit cache data fname prompt = ⟨.error e, cache, s, c⟩ := by
  simp [ocr_with_gemini, hl, hr]

/-! Behaviour of the retry loop under assumptions on the network oracle. -/

theorem runAttempts_calls_pos (net : Nat → NetResult) (jit : Nat → ℚ)
    (le : Option String) (a fuel : Nat) (h : 0 < fuel) :
    1 ≤ (runAttempts net jit le a fuel).calls := by
  match fuel, h with
  | fuel + 1, _ =>
    cases hn : net a with
    | success t =>
      rw [runAttempts_succ_success net jit le a fuel t hn]
    | failure msg =>
      cases ht : isTransient msg with
      | true =>
        rw [runAttempts_succ_trans net jit le a fuel msg hn ht]
        exact Nat.le_add_left 1 _
      | false =>
        rw [runAttempts_succ_fatal net jit le a fuel msg hn ht]

theorem backoff_range_shift (jit : Nat → ℚ) (a k : Nat) :
    (ocrBase * 2 ^ a + jit a) ::
        (List.range k).map (fun n => ocrBase * 2 ^ (a + 1 + n) + jit (a + 1 + n))
      = (List.range (k + 1)).map (fun n => ocrBase * 2 ^ (a + n) + jit (a + n)) := by
  simp only [List.range_succ_eq_map, List.map_cons, List.map_map, Nat.add_zero]
  refine congrArg (List.cons _) (List.map_congr_left (fun n _ => ?_))
  simp only [Function.comp_apply]
  rw [show a + 1 + n = a + Nat.succ n by omega]

theorem runAttempts_ok_after (net : Nat → NetResult) (jit : Nat → ℚ) :
    ∀ (k : Nat) (m : Nat → String) (t : Option String) (a fuel : Nat)
      (le : Option String), k < fuel →
      (∀ i, i < k → net (a + i) = .failure (m i) ∧ isTransient (m i) = true) →
      net (a + k) = .success t →
      runAttempts net jit le a fuel =
        ⟨.ok (pyStrip (t.getD "")),
         (List.range k).map (fun n => ocrBase * 2 ^ (a + n) + jit (a + n)),
         k + 1⟩ := by
  intro k
  induction k with
  | zero =>
    intro m t a fuel le hk hfail hok
    match fuel, hk with
    | fuel + 1, _ =>
      rw [Nat.add_zero] at hok
      rw [runAttempts_succ_success net jit le a fuel t hok]
      simp
  | succ k ih =>
    intro m t a fuel le hk hfail hok
    match fuel, hk with
    | fuel + 1, hk =>
      have h0 := hfail 0 (Nat.succ_pos k)
      rw [Nat.add_zero] at h0
      rw [runAttempts_succ_trans net jit le a fuel (m 0) h0.1 h0.2]
      have hrec := ih (fun i => m (i + 1)) t (a + 1) fuel (some (m 0))
        (Nat.lt_of_succ_lt_succ hk)
        (fun i hi => by
          have hh := hfail (i + 1) (Nat.succ_lt_succ hi)
          rwa [show a + (i + 1) = a + 1 + i by omega] at hh)
        (by rwa [show a + 1 + k = a + (k + 1) by omega])
      rw [hrec]
      show AOut.mk (ARes.ok (pyStrip (t.getD "")))
          ((ocrBase * 2 ^ a + jit a) ::
            (List.range k).map (fun n => ocrBase * 2 ^ (a + 1 + n) + jit (a + 1 + n)))
          (k + 1 + 1) = _
      rw [backoff_range_shift jit a k]

theorem runAttempts_all_trans (net : Nat → NetResult) (jit : Nat → ℚ) :
    ∀ (fuel : Nat) (m : Nat → String) (a : Nat) (le : Option String), 0 < fuel →
      (∀ i, i < fuel → net (a + i) = .failure (m (a + i)) ∧
        isTransient (m (a + i)) = true) →
      runAttempts net jit le a fuel =
        ⟨.exhausted (some (m (a + fuel - 1))),
         (List.range fuel).map (fun n => ocrBase * 2 ^ (a + n) + jit (a + n)),
         fuel⟩ := by
  intro fuel
  induction fuel with
  | zero => intro m a le h; exact absurd h (lt_irrefl 0)
  | succ f ih =>
    intro m a le _ hfail
    have h0 := hfail 0 (Nat.succ_pos f)
    rw [Nat.add_zero] at h0
    rw [runAttempts_succ_trans net jit le a f (m a) h0.1 h0.2]
    cases f with
    | zero =>
      rw [runAttempts_zero]
      simp [List.range_succ]
    | succ f2 =>
      have hrec := ih m (a + 1) (some (m a)) (Nat.succ_pos f2)
        (fun i hi => by
          have hh := hfail (i + 1) (Nat.succ_lt_succ hi)
          rwa [show a + (i + 1) = a + 1 + i by omega] at hh)
      rw [hrec]
      show AOut.mk (ARes.exhausted (some (m (a + 1 + (f2 + 1) - 1))))
          ((ocrBase * 2 ^ a + jit a) ::
            (List.range (f2 + 1)).map
              (fun n => ocrBase * 2 ^ (a + 1 + n) + jit (a + 1 + n)))
          (f2 + 1 + 1) = _
      rw [backoff_range_shift jit a (f2 + 1),
        show a + 1 + (f2 + 1) - 1 = a + (f2 + 1 + 1) - 1 by omega]

theorem ocr_ok_lookup (hash : List Nat → String) (net : String → Nat → NetResult)
    (jit : Nat → Nat → ℚ) (cache : Cache) (data : List Nat) (fname prompt t : String)
    (h : (ocr_with_gemini hash net jit cache data fname prompt).result = .ok t) :
    cacheLookup (ocr_with_gemini hash net jit cache data fname prompt).cache
      (hash data, prompt) = some t := by
  rcases hl : cacheLookup cache (hash data, prompt) with _ | v
  · rcases hR : runModels net jit none 0 ocrModels with ⟨res, s, c⟩
    rcases res with e | t2
    · have he := ocr_miss_err hash net jit cache data fname prompt e s c hl hR
      rw [he] at h
      simp at h
    · have he := ocr_miss_ok hash net jit cache data fname prompt t2 s c hl hR
      rw [he] at h ⊢
      simp only [Except.ok.injEq] at h
      subst h
      exact cacheLookup_cons_self _ _ _
  · have he := ocr_hit hash net jit cache data fname prompt v hl
    rw [he] at h ⊢
    simp only [Except.ok.injEq] at h
    subst h
    exact hl

theorem runModels_cons_calls_ge (net : String → Nat → NetResult)
    (jit : Nat → Nat → ℚ) (le : Option String) (i : Nat) (model : String)
    (rest : List String) :
    (runAttempts (net model) (jit i) le 0 6).calls ≤
      (runModels net jit le i (model :: rest)).calls := by
  rcases hA : runAttempts (net model) (jit i) le 0 6 with ⟨res, s, c⟩
  rcases res with t | msg | e
  · rw [runModels_cons_ok net jit le i model rest t s c hA]
  · rw [runModels_cons_fatal net jit le i model rest msg s c hA]
  · rw [runModels_cons_exh net jit le i model rest e s c hA]
    exact Nat.le_add_right _ _

theorem ocr_miss_calls (hash : List Nat → String) (net : String → Nat → NetResult)
    (jit : Nat → Nat → ℚ) (cache : Cache) (data : List Nat) (fname prompt : String)
    (hl : cacheLookup cache (hash data, prompt) = none) :
    (ocr_with_gemini hash net jit cache data fname prompt).calls =
      (runModels net jit none 0 ocrModels).calls := by
  rcases hR : runModels net jit none 0 ocrModels with ⟨res, s, c⟩
  rcases res with e | t
  · rw [ocr_miss_err hash net jit cache data fname prompt e s c hl hR]
  · rw [ocr_miss_ok hash net jit cache data fname prompt t s c hl hR]

/-! The claims. -/

/-- C1: within one session, a second ocr_with_gemini call with the same
image bytes and the same prompt (possibly a different declared filename,
and whatever the network would now answer) makes no network call, sleeps
never, leaves the cache unchanged and returns the same text as the first
call; and the first call itself does not depend on the declared filename,
since the cache key combines the digest of the bytes with the prompt. -/
theorem C1_cache_dedup (hash : List Nat → String)
    (net net2 : String → Nat → NetResult) (jit jit2 : Nat → Nat → ℚ)
    (cache : Cache) (data : List Nat) (fname fname2 prompt t : String)
    (h : (ocr_with_gemini hash net jit cache data fname prompt).result = .ok t) :
    ocr_with_gemini hash net2 jit2
        (ocr_with_gemini hash net jit cache data fname prompt).cache
        data fname2 prompt =
      ⟨.ok t, (ocr_with_gemini hash net jit cache data fname prompt).cache, [], 0⟩ ∧
    ocr_with_gemini hash net jit cache data fname prompt =
      ocr_with_gemini hash net jit cache data fname2 prompt := by
  refine ⟨?_, rfl⟩
  exact ocr_hit hash net2 jit2 _ data fname2 prompt t
    (ocr_ok_lookup hash net jit cache data fname prompt t h)

/-- C1 witness: a concrete first call stores Hello, and the repeat call
with a different filename returns it from the cache with zero calls. -/
theorem C1_cache_dedup_witness :
    ocr_with_gemini hashW netOk jitW
        (ocr_with_gemini hashW netOk jitW [] [1] "a.png" "p").cache
        [1] "b.png" "p" =
      ⟨.ok "Hello", (ocr_with_gemini hashW netOk jitW [] [1] "a.png" "p").cache,
       [], 0⟩ ∧
    ocr_with_gemini hashW netOk jitW [] [1] "a.png" "p" =
      ocr_with_gemini hashW netOk jitW [] [1] "b.png" "p" :=
  C1_cache_dedup hashW netOk netOk jitW jitW [] [1] "a.png" "b.png" "p" "Hello" rfl

/-- C2: on a fresh cache, if the first model fails transiently on its first
k attempts (k below 6) and succeeds on attempt k, then ocr_with_gemini
returns the stripped response text after exactly k plus one network calls
(never more than 6), having slept ocrBase times 2 to the n plus jitter
before each retry; these delays are monotonically non-decreasing whenever
every jitter value lies between 0 and one half. -/
theorem C2_retry_backoff (hash : List Nat → String) (net : String → Nat → NetResult)
    (jit : Nat → Nat → ℚ) (data : List Nat) (fname prompt : String)
    (m : Nat → String) (t : Option String) (k : Nat)
    (hk : k < 6)
    (hfail : ∀ i, i < k →
      net "gemini-2.5-flash" i = .failure (m i) ∧ isTransient (m i) = true)
    (hok : net "gemini-2.5-flash" k = .success t)
    (hjit : ∀ i, 0 ≤ jit 0 i ∧ jit 0 i ≤ 1 / 2) :
    (ocr_with_gemini hash net jit [] data fname prompt).result
        = .ok (pyStrip (t.getD "")) ∧
    (ocr_with_gemini hash net jit [] data fname prompt).calls = k + 1 ∧
    (ocr_with_gemini hash net jit [] data fname prompt).calls ≤ 6 ∧
    (ocr_with_gemini hash net jit [] data fname prompt).sleeps
        = (List.range k).map (fun n => ocrBase * 2 ^ n + jit 0 n) ∧
    (∀ i j, i ≤ j → ocrBase * 2 ^ i + jit 0 i ≤ ocrBase * 2 ^ j + jit 0 j) := by
  have ha := runAttempts_ok_after (net "gemini-2.5-flash") (jit 0) k m t 0 6 none hk
    (fun i hi => by simpa using hfail i hi) (by simpa using hok)
  have ha2 : runAttempts (net "gemini-2.5-flash") (jit 0) none 0 6 =
      ⟨.ok (pyStrip (t.getD "")),
       (List.range k).map (fun n => ocrBase * 2 ^ n + jit 0 n), k + 1⟩ := by
    simpa using ha
  have hm : runModels net jit none 0 ocrModels =
      ⟨.ok (pyStrip (t.getD "")),
       (List.range k).map (fun n => ocrBase * 2 ^ n + jit 0 n), k + 1⟩ :=
    runModels_cons_ok net jit none 0 "gemini-2.5-flash"
      ["gemini-1.5-flash", "gemini-1.5-flash-8b"] _ _ _ ha2
  have ho := ocr_miss_ok hash net jit [] data fname prompt _ _ _ rfl hm
  rw [ho]
  refine ⟨rfl, rfl, ?_, rfl, ?_⟩
  · show k + 1 ≤ 6
    omega
  intro i j hij
  rcases Nat.eq_or_lt_of_le hij with hEq | hlt
  · rw [hEq]
  · have h1 : (1 : ℚ) ≤ 2 ^ i := one_le_pow₀ (by norm_num)
    have h2 : (2 : ℚ) ^ (i + 1) ≤ 2 ^ j := pow_le_pow_right₀ (by norm_num) hlt
    rw [pow_succ] at h2
    have hb : ocrBase = 4 / 5 := by norm_num [ocrBase]
    rw [hb]
    have hi2 := hjit i
    have hj2 := hjit j
    linarith [hi2.1, hi2.2, hj2.1, hj2.2]

/-- C2 witness: one transient failure followed by success returns Hi after
two calls, with the single slept delay following the backoff formula. -/
theorem C2_retry_backoff_witness :
    (ocr_with_gemini hashW netRetry jitW [] [1] "a.png" "p").result
        = .ok (pyStrip ((some "Hi").getD "")) ∧
    (ocr_with_gemini hashW netRetry jitW [] [1] "a.png" "p").calls = 1 + 1 ∧
    (ocr_with_gemini hashW netRetry jitW [] [1] "a.png" "p").calls ≤ 6 ∧
    (ocr_with_gemini hashW netRetry jitW [] [1] "a.png" "p").sleeps
        = (List.range 1).map (fun n => ocrBase * 2 ^ n + jitW 0 n) ∧
    (∀ i j, i ≤ j → ocrBase * 2 ^ i + jitW 0 i ≤ ocrBase * 2 ^ j + jitW 0 j) :=
  C2_retry_backoff hashW netRetry jitW [1] "a.png" "p" (fun _ => "503 down")
    (some "Hi") 1 (by norm_num)
    (fun i hi => by interval_cases i; exact ⟨rfl, by decide⟩)
    rfl (fun i => ⟨le_refl 0, by norm_num [jitW]⟩)

/-- C3 counterexample: the code matches UNAVAILABLE case-sensitively, so the
message service unavailable, transient under the case-insensitive reading
of the claim, is classified non-transient and propagates after a single
network call with no retry. -/
theorem C3_counterexample :
    transientSpecCI "service unavailable" = true ∧
    isTransient "service unavailable" = false ∧
    (ocr_with_gemini hashW (fun _ _ => .failure "service unavailable") jitW [] [0]
        "img.png" "p").result = .error "service unavailable" ∧
    (ocr_with_gemini hashW (fun _ _ => .failure "service unavailable") jitW [] [0]
        "img.png" "p").calls = 1 :=
  ⟨by decide, by decide, rfl, rfl⟩

/-- C3 amended: on a fresh cache, when the first attempt of the first model
fails, the error propagates immediately, with exactly one network call, no
sleep and no attempt on any later model, exactly when isTransient rejects
the message, where isTransient matches 503 and UNAVAILABLE case-sensitively
and deadline case-insensitively; when isTransient accepts it, at least one
further attempt is made. -/
theorem C3_classification (hash : List Nat → String) (net : String → Nat → NetResult)
    (jit : Nat → Nat → ℚ) (data : List Nat) (fname prompt msg : String)
    (h0 : net "gemini-2.5-flash" 0 = .failure msg) :
    (isTransient msg = false →
      ocr_with_gemini hash net jit [] data fname prompt =
        ⟨.error msg, [], [], 1⟩) ∧
    (isTransient msg = true →
      2 ≤ (ocr_with_gemini hash net jit [] data fname prompt).calls) := by
  constructor
  · intro ht
    have ha := runAttempts_succ_fatal (net "gemini-2.5-flash") (jit 0) none 0 5 msg h0 ht
    have hm : runModels net jit none 0 ocrModels = ⟨.error msg, [], 1⟩ :=
      runModels_cons_fatal net jit none 0 "gemini-2.5-flash"
        ["gemini-1.5-flash", "gemini-1.5-flash-8b"] msg [] 1 ha
    exact ocr_miss_err hash net jit [] data fname prompt msg [] 1 rfl hm
  · intro ht
    have ha := runAttempts_succ_trans (net "gemini-2.5-flash") (jit 0) none 0 5 msg h0 ht
    have hcalls : (runAttempts (net "gemini-2.5-flash") (jit 0) none 0 6).calls
        = (runAttempts (net "gemini-2.5-flash") (jit 0) (some msg) 1 5).calls + 1 := by
      rw [ha]
    have hpos := runAttempts_calls_pos (net "gemini-2.5-flash") (jit 0)
      (some msg) 1 5 (by norm_num)
    have h2 : 2 ≤ (runAttempts (net "gemini-2.5-flash") (jit 0) none 0 6).calls := by
      omega
    have h3 := runModels_cons_calls_ge net jit none 0 "gemini-2.5-flash"
      ["gemini-1.5-flash", "gemini-1.5-flash-8b"]
    have h4 := ocr_miss_calls hash net jit [] data fname prompt rfl
    rw [h4]
    exact le_trans h2 h3

/-- C3 amended witness: the non-transient message bad request on attempt 0
propagates at once with one call, an empty sleep trace and no cache write. -/
theorem C3_classification_witness :
    ocr_with_gemini hashW netFatal jitW [] [1] "a.png" "p" =
      ⟨.error "bad request", [], [], 1⟩ :=
  (C3_classification hashW netFatal jitW [1] "a.png" "p" "bad request" rfl).1
    (by decide)

/-- C4: when every attempt of every model fails transiently, the call
raises the transient error seen on the last attempt of the last model,
never a generic unrelated error, after 18 network calls. -/
theorem C4_exhaustion (hash : List Nat → String) (net : String → Nat → NetResult)
    (jit : Nat → Nat → ℚ) (data : List Nat) (fname prompt : String)
    (em : String → Nat → String)
    (hfail : ∀ mod, mod ∈ ocrModels → ∀ i, i < 6 →
      net mod i = .failure (em mod i) ∧ isTransient (em mod i) = true) :
    (ocr_with_gemini hash net jit [] data fname prompt).result
        = .error (em "gemini-1.5-flash-8b" 5) ∧
    isTransient (em "gemini-1.5-flash-8b" 5) = true ∧
    (ocr_with_gemini hash net jit [] data fname prompt).calls = 18 := by
  have hA : ∀ mod, mod ∈ ocrModels → ∀ (mi : Nat) (le : Option String),
      runAttempts (net mod) (jit mi) le 0 6 =
        ⟨.exhausted (some (em mod 5)),
         (List.range 6).map (fun n => ocrBase * 2 ^ n + jit mi n), 6⟩ := by
    intro mod hmod mi le
    have h6 := runAttempts_all_trans (net mod) (jit mi) 6 (em mod) 0 le (by norm_num)
      (fun i hi => by simpa using hfail mod hmod i hi)
    simpa using h6
  have e1 := hA "gemini-2.5-flash" (by simp [ocrModels]) 0 none
  have e2 := hA "gemini-1.5-flash" (by simp [ocrModels]) 1
    (some (em "gemini-2.5-flash" 5))
  have e3 := hA "gemini-1.5-flash-8b" (by simp [ocrModels]) 2
    (some (em "gemini-1.5-flash" 5))
  have hm3 : runModels net jit (some (em "gemini-1.5-flash" 5)) 2
      ["gemini-1.5-flash-8b"] =
      ⟨.error (em "gemini-1.5-flash-8b" 5),
       (List.range 6).map (fun n => ocrBase * 2 ^ n + jit 2 n), 6⟩ := by
    have h1 := runModels_cons_exh net jit (some (em "gemini-1.5-flash" 5)) 2
      "gemini-1.5-flash-8b" [] (some (em "gemini-1.5-flash-8b" 5)) _ _ e3
    rw [runModels_nil] at h1
    simpa using h1
  have hm2 : runModels net jit (some (em "gemini-2.5-flash" 5)) 1
      ["gemini-1.5-flash", "gemini-1.5-flash-8b"] =
      ⟨.error (em "gemini-1.5-flash-8b" 5),
       (List.range 6).map (fun n => ocrBase * 2 ^ n + jit 1 n) ++
         (List.range 6).map (fun n => ocrBase * 2 ^ n + jit 2 n), 6 + 6⟩ := by
    have h1 := runModels_cons_exh net jit (some (em "gemini-2.5-flash" 5)) 1
      "gemini-1.5-flash" ["gemini-1.5-flash-8b"] (some (em "gemini-1.5-flash" 5)) _ _ e2
    simp only [Option.getD_some] at h1
    rw [hm3] at h1
    exact h1
  have hm1 : runModels net jit none 0 ocrModels =
      ⟨.error (em "gemini-1.5-flash-8b" 5),
       (List.range 6).map (fun n => ocrBase * 2 ^ n + jit 0 n) ++
         ((List.range 6).map (fun n => ocrBase * 2 ^ n + jit 1 n) ++
           (List.range 6).map (fun n => ocrBase * 2 ^ n + jit 2 n)), 6 + (6 + 6)⟩ := by
    have h1 := runModels_cons_exh net jit none 0 "gemini-2.5-flash"
      ["gemini-1.5-flash", "gemini-1.5-flash-8b"] (some (em "gemini-2.5-flash" 5)) _ _ e1
    simp only [Option.getD_some] at h1
    rw [hm2] at h1
    exact h1
  have ho := ocr_miss_err hash net jit [] data fname prompt _ _ _ rfl hm1
  rw [ho]
  exact ⟨rfl, (hfail "gemini-1.5-flash-8b" (by simp [ocrModels]) 5 (by norm_num)).2, rfl⟩

/-- C4 witness: with every call failing with the transient message 503
down on every model, the final raised error is that transient message and
18 calls were made in total. -/
theorem C4_exhaustion_witness :
    (ocr_with_gemini hashW netUnavail jitW [] [1] "a.png" "p").result
        = .error "503 down" ∧
    isTransient "503 down" = true ∧
    (ocr_with_gemini hashW netUnavail jitW [] [1] "a.png" "p").calls = 18 :=
  C4_exhaustion hashW netUnavail jitW [1] "a.png" "p" (fun _ _ => "503 down")
    (fun mod _ i _ => ⟨rfl, by show isTransient "503 down" = true; decide⟩)

theorem pyStrip_pageFail (e : String) :
    pyStrip (pageFailText 2 e) = pageFailText 2 e := by
  have hlit : "[Page " ++ Nat.repr 2 ++ " failed after retries: "
      = "[Page 2 failed after retries: " := by decide
  have hform : pageFailText 2 e = "[Page 2 failed after retries: " ++ e ++ "]" := by
    simp only [pageFailText]
    rw [hlit]
  have hdata : (pageFailText 2 e).data
      = '[' :: (("Page 2 failed after retries: ".data ++ e.data) ++ [']']) := by
    rw [hform]
    simp [strData_append, List.append_assoc]
  have hstrip := stripChars_sandwich '[' ']'
    (("Page 2 failed after retries: " : String).data ++ e.data) (by decide) (by decide)
  show String.mk (stripChars (pageFailText 2 e).data) = pageFailText 2 e
  rw [hdata, hstrip, ← hdata]

/-- C5: a three page PDF whose page 2 fails while pages 1 and 3 return A
and C yields exactly A, then the fixed page separator, then the page 2
placeholder, then the separator, then C; the placeholder has the literal
failed-after-retries form, and a per-page failure never shortens the batch:
the page loop always yields one text per page. -/
theorem C5_page_join (e : String) (pr : Nat → Except String String)
    (h1 : pr 1 = .ok "A") (h2 : pr 2 = .error e) (h3 : pr 3 = .ok "C") :
    joinPages (pdfTexts pr 3) =
      "A" ++ pageBreak ++ pageFailText 2 e ++ pageBreak ++ "C" ∧
    pageFailText 2 e = "[Page 2 failed after retries: " ++ e ++ "]" ∧
    (∀ (q : Nat → Except String String) (n : Nat), (pdfTexts q n).length = n) := by
  have hform : pageFailText 2 e = "[Page 2 failed after retries: " ++ e ++ "]" := by
    simp only [pageFailText]
    rw [show "[Page " ++ Nat.repr 2 ++ " failed after retries: "
        = "[Page 2 failed after retries: " by decide]
  refine ⟨?_, hform, fun q n => by simp [pdfTexts]⟩
  have hp : pdfTexts pr 3 = ["A", pageFailText 2 e, "C"] := by
    simp [pdfTexts, List.range_succ, h1, h2, h3]
  rw [hp]
  have hA : pyStrip "A" = "A" := by decide
  have hC : pyStrip "C" = "C" := by decide
  have hph : pyStrip (pageFailText 2 e) = pageFailText 2 e := pyStrip_pageFail e
  show joinWith pageBreak (["A", pageFailText 2 e, "C"].map pyStrip) = _
  simp only [List.map_cons, List.map_nil, hA, hC, hph]
  show "A" ++ pageBreak ++ (pageFailText 2 e ++ pageBreak ++ "C") = _
  simp [strAppend_assoc]

/-- C5 witness: the concrete three page scenario with error message boom. -/
theorem C5_page_join_witness :
    joinPages (pdfTexts pagesW 3) =
      "A" ++ pageBreak ++ pageFailText 2 "boom" ++ pageBreak ++ "C" ∧
    pageFailText 2 "boom" = "[Page 2 failed after retries: " ++ "boom" ++ "]" ∧
    (∀ (q : Nat → Except String String) (n : Nat), (pdfTexts q n).length = n) :=
  C5_page_join "boom" pagesW rfl rfl rfl

/-- C6: a stored usage record whose date differs from today loads as count
0 for today, below the daily limit; a record dated today loads unchanged;
a missing usage file loads as count 0. -/
theorem C6_usage_reset (r : UsageRecord) (today : String) :
    (r.date ≠ today →
      load_usage (some r) today = ⟨today, 0⟩ ∧
      ¬ (load_usage (some r) today).count ≥ DAILY_LIMIT) ∧
    (r.date = today → load_usage (some r) today = r) ∧
    (load_usage none today).count = 0 := by
  refine ⟨fun h => ⟨?_, ?_⟩, fun h => ?_, ?_⟩
  · simp [load_usage, h]
  · simp [load_usage, h, DAILY_LIMIT]
  · simp [load_usage, h]
  · simp only [load_usage]
    split <;> rfl

/-- C6 witness: the stored record of 2024-01-01 with count 5 resets on
2024-01-02 to count 0, below the limit. -/
theorem C6_usage_reset_witness :
    load_usage (some ⟨"2024-01-01", 5⟩) "2024-01-02" = ⟨"2024-01-02", 0⟩ ∧
    ¬ (load_usage (some ⟨"2024-01-01", 5⟩) "2024-01-02").count ≥ DAILY_LIMIT :=
  (C6_usage_reset ⟨"2024-01-01", 5⟩ "2024-01-02").1 (by decide)

/-- C7: with the shared default key and the loaded count at or above the
daily limit, the conversion is refused before any network activity: no
client is constructed and no page is OCRed; an empty personal key is
likewise refused before any network activity. -/
theorem C7_quota_refusal (stored : Option UsageRecord) (today api_key : String)
    (pageOcr : Nat → Except String String) (n : Nat) :
    ((load_usage stored today).count ≥ DAILY_LIMIT →
      convert true stored today api_key pageOcr n =
        ⟨some .quotaExceeded, false, 0, "", false, none⟩) ∧
    convert false stored today "" pageOcr n =
      ⟨some .missingKey, false, 0, "", false, none⟩ := by
  constructor
  · intro h
    simp [convert, h]
  · simp [convert]

/-- C7 witness: a shared-key conversion on the day the stored count is
already 5 is refused with no client and no page processed. -/
theorem C7_quota_refusal_witness :
    convert true (some ⟨"2024-01-01", 5⟩) "2024-01-01" "key" pagesW 3 =
      ⟨some .quotaExceeded, false, 0, "", false, none⟩ :=
  (C7_quota_refusal (some ⟨"2024-01-01", 5⟩) "2024-01-01" "key" pagesW 3).1
    (by decide)

/-- C8: one ocr_with_gemini call either leaves the cache unchanged or
extends it by exactly the entry for its own key with the returned text,
and a cache hit has no effect at all: the cache is untouched, no network
call is made and nothing is slept. -/
theorem C8_frame (hash : List Nat → String) (net : String → Nat → NetResult)
    (jit : Nat → Nat → ℚ) (cache : Cache) (data : List Nat) (fname prompt : String) :
    ((ocr_with_gemini hash net jit cache data fname prompt).cache = cache ∨
      ∃ t, (ocr_with_gemini hash net jit cache data fname prompt).result = .ok t ∧
        (ocr_with_gemini hash net jit cache data fname prompt).cache
          = ((hash data, prompt), t) :: cache) ∧
    (∀ t0, cacheLookup cache (hash data, prompt) = some t0 →
      ocr_with_gemini hash net jit cache data fname prompt = ⟨.ok t0, cache, [], 0⟩) := by
  constructor
  · rcases hl : cacheLookup cache (hash data, prompt) with _ | v
    · rcases hR : runModels net jit none 0 ocrModels with ⟨res, s, c⟩
      rcases res with e | t
      · left
        rw [ocr_miss_err hash net jit cache data fname prompt e s c hl hR]
      · right
        refine ⟨t, ?_, ?_⟩ <;>
          rw [ocr_miss_ok hash net jit cache data fname prompt t s c hl hR]
    · left
      rw [ocr_hit hash net jit cache data fname prompt v hl]
  · intro t0 hl
    exact ocr_hit hash net jit cache data fname prompt t0 hl

/-- C8 witness: on a cache already holding the key, the call returns the
cached text and the full trace shows no write, no sleep and no call. -/
theorem C8_frame_witness :
    ocr_with_gemini hashW netOk jitW [(("h1", "p"), "T")] [1] "x.png" "p" =
      ⟨.ok "T", [(("h1", "p"), "T")], [], 0⟩ :=
  (C8_frame hashW netOk jitW [(("h1", "p"), "T")] [1] "x.png" "p").2 "T" rfl

/-- C9: when ocr_with_gemini raises, the session cache is unchanged; an
entry under the request key appears exactly on the success path, holding
the returned text. -/
theorem C9_cache_only_on_success (hash : List Nat → String)
    (net : String → Nat → NetResult) (jit : Nat → Nat → ℚ) (cache : Cache)
    (data : List Nat) (fname prompt : String) :
    (∀ e, (ocr_with_gemini hash net jit cache data fname prompt).result = .error e →
      (ocr_with_gemini hash net jit cache data fname prompt).cache = cache) ∧
    (∀ t, (ocr_with_gemini hash net jit cache data fname prompt).result = .ok t →
      cacheLookup (ocr_with_gemini hash net jit cache data fname prompt).cache
        (hash data, prompt) = some t) := by
  constructor
  · intro e he
    rcases hl : cacheLookup cache (hash data, prompt) with _ | v
    · rcases hR : runModels net jit none 0 ocrModels with ⟨res, s, c⟩
      rcases res with e2 | t2
      · rw [ocr_miss_err hash net jit cache data fname prompt e2 s c hl hR]
      · rw [ocr_miss_ok hash net jit cache data fname prompt t2 s c hl hR] at he
        simp at he
    · rw [ocr_hit hash net jit cache data fname prompt v hl] at he
      simp at he
  · exact fun t ht => ocr_ok_lookup hash net jit cache data fname prompt t ht

/-- C9 witness: a non-transient failure leaves a pre-existing unrelated
cache entry list exactly as it was. -/
theorem C9_cache_only_on_success_witness :
    (ocr_with_gemini hashW netFatal jitW [(("zz", "q"), "old")] [1] "a.png" "p").cache
      = [(("zz", "q"), "old")] :=
  (C9_cache_only_on_success hashW netFatal jitW [(("zz", "q"), "old")] [1]
    "a.png" "p").1 "bad request" rfl

/-- C10: in a shared-key conversion that passes the quota and key gates,
nothing is persisted when the joined text is blank after stripping, and
exactly one save of the record with count incremented by one happens when
it is non-blank. -/
theorem C10_usage_increment (stored : Option UsageRecord) (today api_key : String)
    (pageOcr : Nat → Except String String) (n : Nat)
    (hq : (load_usage stored today).count < DAILY_LIMIT) (hk : api_key ≠ "") :
    (pyStrip (joinPages (pdfTexts pageOcr n)) = "" →
      (convert true stored today api_key pageOcr n).saved = none ∧
      (convert true stored today api_key pageOcr n).blankWarning = true) ∧
    (pyStrip (joinPages (pdfTexts pageOcr n)) ≠ "" →
      (convert true stored today api_key pageOcr n).saved =
        some ⟨(load_usage stored today).date, (load_usage stored today).count + 1⟩ ∧
      (convert true stored today api_key pageOcr n).blankWarning = false) := by
  have hnot : ¬ (True ∧ (load_usage stored today).count ≥ DAILY_LIMIT) := by
    simp only [true_and]
    omega
  constructor
  · intro hb
    simp only [convert]
    rw [if_neg hnot, if_neg hk, if_pos hb]
    exact ⟨rfl, rfl⟩
  · intro hb
    simp only [convert]
    rw [if_neg hnot, if_neg hk, if_neg hb, if_pos trivial]
    exact ⟨rfl, rfl⟩

/-- C10 witness: a fresh day, one page whose text is empty: the joined text
is blank, the warning fires and nothing is saved. -/
theorem C10_usage_increment_witness :
    (convert true none "2024-01-02" "key" pagesBlank 1).saved = none ∧
    (convert true none "2024-01-02" "key" pagesBlank 1).blankWarning = true :=
  (C10_usage_increment none "2024-01-02" "key" pagesBlank 1 (by decide)
    (by decide)).1 (by decide)

end Script
